import Mathlib

/-!
Verification of the churn-prediction inference app (`src/app.py`).

The file embeds the preprocessing routine `preprocess_data` and the service
entry point `predict` as pure Lean functions over an explicit `Artifacts`
bundle (the five fitted transformers loaded from disk at startup).

Conventions of the embedding:
* A pandas cell in one of the three numeric columns is a `NumVal`: either an
  actual number or a string (the DataFrame column holds whatever the caller
  passed).
* After `astype(float)`, a numeric cell is an `Option ℚ`, where `none` plays
  the role of NaN (the only source of NaN in this pipeline is the
  `replace(' ', np.nan)` step, so modelling NaN as an absent value is exact).
* A raised Python exception is an `Except.error` carrying a `PErr`; the
  catch-all in `predict` turns it into its message string.
* The fitted transformers themselves (scikit-learn objects) are external
  artifacts whose code is not in the repository; their `transform` methods are
  modelled from the spec (category-table lookup failing on unknown categories,
  per-field min/max linear rescaling).
-/

/-- Python whitespace characters recognised by `str.strip()` / `float()`. -/
def isPySpace (c : Char) : Bool :=
  c = ' ' || c = '\t' || c = '\n' || c = '\r' || c = '\x0b' || c = '\x0c'

/-- Strip leading whitespace from a character list. -/
def lstripChars (l : List Char) : List Char := l.dropWhile isPySpace

/-- Strip trailing whitespace from a character list. -/
def rstripChars (l : List Char) : List Char :=
  (l.reverse.dropWhile isPySpace).reverse

/-- Strip leading and trailing whitespace (Python `str.strip()`). -/
def stripChars (l : List Char) : List Char := rstripChars (lstripChars l)

/-- Python `str.strip()` on a string (used by `df[col].str.strip()`). -/
def pyStrip (s : String) : String := ⟨stripChars s.data⟩

/-- Numeric value of a digit list, most significant first (empty list = 0). -/
def digitsVal (l : List Char) : ℕ :=
  l.foldl (fun acc c => 10 * acc + (c.toNat - 48)) 0

/-- Parse an unsigned decimal literal (`"12"`, `"12.5"`, `".5"`, `"12."`);
`none` when the text is not a valid Python float body. -/
def parseUnsigned (l : List Char) : Option ℚ :=
  let ip := l.takeWhile (fun c => c ≠ '.')
  let rest := l.dropWhile (fun c => c ≠ '.')
  match rest with
  | [] =>
      if ip ≠ [] ∧ ip.all Char.isDigit then some (digitsVal ip) else none
  | _ :: fp =>
      if (ip ≠ [] ∨ fp ≠ []) ∧ ip.all Char.isDigit ∧ fp.all Char.isDigit ∧
          ¬ fp.contains '.'
      then some ((digitsVal ip : ℚ) + (digitsVal fp : ℚ) / 10 ^ fp.length)
      else none

/-- Python `float(s)`: strip surrounding whitespace, optional sign, then a
decimal literal; `none` models the `ValueError` raised on anything else. -/
def pyFloat (s : String) : Option ℚ :=
  match stripChars s.data with
  | '-' :: rest => (parseUnsigned rest).map Neg.neg
  | '+' :: rest => parseUnsigned rest
  | l => parseUnsigned l

/-- A cell of one of the three numeric columns of the single-row DataFrame:
the caller may have supplied a number or a string. -/
inductive NumVal where
  | num (q : ℚ)
  | str (s : String)
  deriving Repr, DecidableEq

/-- The per-request errors the pipeline can raise (Python exceptions). -/
inductive PErr where
  | parseFloat (s : String)
  | unknownCategory (field val : String)
  | degenerateScale (field : String)
  | badIndex (i : ℕ)
  deriving Repr, DecidableEq

/-- The message the catch-all in `predict` returns (`str(e)`). -/
def PErr.message : PErr → String
  | .parseFloat s => "could not convert string to float: " ++ s
  | .unknownCategory field val => "column " ++ field ++ ": unknown category " ++ val
  | .degenerateScale field => "column " ++ field ++ ": scaling undefined, min equals max"
  | .badIndex i => "class index " ++ Nat.repr i ++ " out of range"

/-- Modelled from the spec: a fitted per-column label encoder is a fixed
category table mapping each allowed string to a stable integer code
(its position in `classes`). -/
structure LabelEnc where
  classes : List String
  deriving Repr, DecidableEq

/-- Modelled from the spec: label-encoder `transform` looks the cleaned string
up in the fixed category table and must fail on an unrecognized category. -/
def LabelEnc.transform (e : LabelEnc) (field s : String) : Except PErr ℕ :=
  if s ∈ e.classes then .ok (e.classes.indexOf s)
  else .error (.unknownCategory field s)

/-- The five per-column label encoders (`label_encoders.pkl`), keyed by the
columns in `label_encode_cols`. -/
structure LabelEncs where
  partner : LabelEnc
  dependents : LabelEnc
  phoneService : LabelEnc
  paperlessBilling : LabelEnc
  gender : LabelEnc
  deriving Repr, DecidableEq

/-- Modelled from the spec: the fitted one-hot encoder holds, for each of the
ten columns in `one_hot_encode_cols`, the category list fixed at fit time
(column order of the indicator block is the order of these lists). -/
structure OneHotEnc where
  multipleLines : List String
  internetService : List String
  onlineSecurity : List String
  onlineBackup : List String
  deviceProtection : List String
  techSupport : List String
  streamingTV : List String
  streamingMovies : List String
  contract : List String
  paymentMethod : List String
  deriving Repr, DecidableEq

/-- Modelled from the spec: the indicator block for one field — a fixed-width
0/1 block with the 1 at the category's index; unknown categories fail. -/
def oneHotField (field : String) (cats : List String) (v : String) :
    Except PErr (List ℚ) :=
  if v ∈ cats then .ok (cats.map fun c => if c = v then (1 : ℚ) else 0)
  else .error (.unknownCategory field v)

/-- Modelled from the spec: the fitted min-max scaler's per-field parameters
learned at fit time. -/
structure ScalerParams where
  dataMin : ℚ
  dataMax : ℚ
  deriving Repr, DecidableEq

/-- Modelled from the spec: `scaled = (value - min) / (max - min)`; when
`max == min` scaling is undefined (division by zero) and surfaces as an
error. A NaN input (`none`) propagates to a NaN output. -/
def scaleValue (p : ScalerParams) (field : String) (v : Option ℚ) :
    Except PErr (Option ℚ) :=
  if p.dataMin = p.dataMax then .error (.degenerateScale field)
  else .ok (v.map fun x => (x - p.dataMin) / (p.dataMax - p.dataMin))

/-- The fitted scaler (`min_max_scaler.pkl`): per-field parameters for the
columns in `min_max_scale_cols`. -/
structure MinMaxScaler where
  tenure : ScalerParams
  monthlyCharges : ScalerParams
  totalCharges : ScalerParams
  deriving Repr, DecidableEq

/-- The artifact bundle loaded at process start in `app.py` (lines 8-12):
label encoders, one-hot encoder, scaler, classifier and target label
encoder. The classifier is an opaque-to-us function from a feature row to a
class index; the target encoder is its class list (`inverse_transform i`
is `le_target.classes_[i]`). -/
structure Artifacts where
  label_encoders : LabelEncs
  one_hot_encoder : OneHotEnc
  min_max_scaler : MinMaxScaler
  model : List (Option ℚ) → ℕ
  le_target : List String

/-- The raw input record: the dict assembled in `predict` (lines 72-92),
one entry per form field. -/
structure RawRecord where
  gender : String
  SeniorCitizen : ℚ
  Partner : String
  Dependents : String
  tenure : NumVal
  PhoneService : String
  MultipleLines : String
  InternetService : String
  OnlineSecurity : String
  OnlineBackup : String
  DeviceProtection : String
  TechSupport : String
  StreamingTV : String
  StreamingMovies : String
  Contract : String
  PaperlessBilling : String
  PaymentMethod : String
  MonthlyCharges : NumVal
  TotalCharges : NumVal
  deriving Repr, DecidableEq

/-- The fifteen categorical columns after the strip pass (lines 34-35). -/
structure CatValues where
  gender : String
  Partner : String
  Dependents : String
  PhoneService : String
  MultipleLines : String
  InternetService : String
  OnlineSecurity : String
  OnlineBackup : String
  DeviceProtection : String
  TechSupport : String
  StreamingTV : String
  StreamingMovies : String
  Contract : String
  PaperlessBilling : String
  PaymentMethod : String
  deriving Repr, DecidableEq

/-- Strip leading/trailing whitespace from every label-encode and one-hot
column (`df[col].str.strip()`, lines 34-35). -/
def stripCats (r : RawRecord) : CatValues where
  gender := pyStrip r.gender
  Partner := pyStrip r.Partner
  Dependents := pyStrip r.Dependents
  PhoneService := pyStrip r.PhoneService
  MultipleLines := pyStrip r.MultipleLines
  InternetService := pyStrip r.InternetService
  OnlineSecurity := pyStrip r.OnlineSecurity
  OnlineBackup := pyStrip r.OnlineBackup
  DeviceProtection := pyStrip r.DeviceProtection
  TechSupport := pyStrip r.TechSupport
  StreamingTV := pyStrip r.StreamingTV
  StreamingMovies := pyStrip r.StreamingMovies
  Contract := pyStrip r.Contract
  PaperlessBilling := pyStrip r.PaperlessBilling
  PaymentMethod := pyStrip r.PaymentMethod

/-- `replace(' ', np.nan)` followed by `astype(float)` on one cell
(line 38): exactly the one-space string becomes NaN; every other string is
parsed with `float`, raising on failure; numbers pass through. -/
def coerceNumeric (v : NumVal) : Except PErr (Option ℚ) :=
  match v with
  | .num q => .ok (some q)
  | .str s =>
      if s = " " then .ok none
      else
        match pyFloat s with
        | some q => .ok (some q)
        | none => .error (.parseFloat s)

/-- The pandas column mean over the single-row batch (skipna): the mean of a
one-entry column is the entry itself, and NaN when that entry is NaN. -/
def colMean1 (v : Option ℚ) : Option ℚ := v

/-- `fillna` on one cell: a NaN cell takes the fill value (a NaN fill value
leaves it NaN), a present cell is unchanged. -/
def fillna1 (v fill : Option ℚ) : Option ℚ :=
  match v with
  | some x => some x
  | none => fill

/-- Line 39: `df[cols] = df[cols].fillna(df[cols].mean())` on the single-row
batch. -/
def imputeNumeric (v : Option ℚ) : Option ℚ := fillna1 v (colMean1 v)

/-- Label-encode a list of (column, encoder, cleaned value) triples in order,
propagating the first unknown-category failure (lines 42-44). -/
def labelEncodeAll : List (String × LabelEnc × String) → Except PErr (List ℕ)
  | [] => .ok []
  | (field, e, s) :: rest => do
      let i ← e.transform field s
      let is ← labelEncodeAll rest
      .ok (i :: is)

/-- One-hot encode a list of (column, categories, cleaned value) triples as
one batch, concatenating the fixed-width indicator blocks in order
(line 48). -/
def oneHotAll : List (String × List String × String) → Except PErr (List ℚ)
  | [] => .ok []
  | (field, cats, s) :: rest => do
      let blk ← oneHotField field cats s
      let others ← oneHotAll rest
      .ok (blk ++ others)

/-- Scale a list of (column, fitted params, value) triples in order
(line 51). -/
def scaleAll : List (String × ScalerParams × Option ℚ) →
    Except PErr (List (Option ℚ))
  | [] => .ok []
  | (field, p, v) :: rest => do
      let s ← scaleValue p field v
      let others ← scaleAll rest
      .ok (s :: others)

/-- The five label-encode columns paired with their encoders and cleaned
values, in the order of `label_encode_cols` (line 27). -/
def labelTriples (A : Artifacts) (c : CatValues) :
    List (String × LabelEnc × String) :=
  [("Partner", A.label_encoders.partner, c.Partner),
   ("Dependents", A.label_encoders.dependents, c.Dependents),
   ("PhoneService", A.label_encoders.phoneService, c.PhoneService),
   ("PaperlessBilling", A.label_encoders.paperlessBilling, c.PaperlessBilling),
   ("gender", A.label_encoders.gender, c.gender)]

/-- The ten one-hot columns paired with their category lists and cleaned
values, in the order of `one_hot_encode_cols` (lines 28-30). -/
def oneHotTriples (A : Artifacts) (c : CatValues) :
    List (String × List String × String) :=
  [("MultipleLines", A.one_hot_encoder.multipleLines, c.MultipleLines),
   ("InternetService", A.one_hot_encoder.internetService, c.InternetService),
   ("OnlineSecurity", A.one_hot_encoder.onlineSecurity, c.OnlineSecurity),
   ("OnlineBackup", A.one_hot_encoder.onlineBackup, c.OnlineBackup),
   ("DeviceProtection", A.one_hot_encoder.deviceProtection, c.DeviceProtection),
   ("TechSupport", A.one_hot_encoder.techSupport, c.TechSupport),
   ("StreamingTV", A.one_hot_encoder.streamingTV, c.StreamingTV),
   ("StreamingMovies", A.one_hot_encoder.streamingMovies, c.StreamingMovies),
   ("Contract", A.one_hot_encoder.contract, c.Contract),
   ("PaymentMethod", A.one_hot_encoder.paymentMethod, c.PaymentMethod)]

/-- The three numeric columns paired with their fitted scaler parameters, in
the order of `min_max_scale_cols` (line 31). -/
def scaleTriples (A : Artifacts) (t m tc : Option ℚ) :
    List (String × ScalerParams × Option ℚ) :=
  [("tenure", A.min_max_scaler.tenure, t),
   ("MonthlyCharges", A.min_max_scaler.monthlyCharges, m),
   ("TotalCharges", A.min_max_scaler.totalCharges, tc)]

/-- An integer label code as a float cell of the feature row. -/
def natCell (n : ℕ) : Option ℚ := some (n : ℚ)

/-- The body of `preprocess_data` after the strip pass, over the cleaned
categorical values and the three raw numeric cells. -/
def preprocessCore (A : Artifacts) (c : CatValues) (t m tc : NumVal) :
    Except PErr (List (Option ℚ)) := do
  let t0 ← coerceNumeric t
  let m0 ← coerceNumeric m
  let tc0 ← coerceNumeric tc
  let t1 := imputeNumeric t0
  let m1 := imputeNumeric m0
  let tc1 := imputeNumeric tc0
  let labels ← labelEncodeAll (labelTriples A c)
  let oneHot ← oneHotAll (oneHotTriples A c)
  let scaled ← scaleAll (scaleTriples A t1 m1 tc1)
  .ok (labels.map natCell ++ scaled ++ oneHot.map some)

/-- `preprocess_data` (lines 15-56): strip the categorical columns, coerce
and impute the numeric columns, label-encode, one-hot encode, scale, and
concatenate label block ++ scaled block ++ one-hot block (line 54). -/
def preprocess_data (A : Artifacts) (r : RawRecord) :
    Except PErr (List (Option ℚ)) :=
  preprocessCore A (stripCats r) r.tenure r.MonthlyCharges r.TotalCharges

/-- `le_target.inverse_transform` on one class index (line 97): look the
index up in the target encoder's class list; out of range raises. -/
def decodeTarget (classes : List String) (i : ℕ) : Except PErr String :=
  match classes[i]? with
  | some s => .ok s
  | none => .error (.badIndex i)

/-- Line 98: `"Churn" if prediction[0] == 'Yes' else "No Churn"`. -/
def churnString (label : String) : String :=
  if label = "Yes" then "Churn" else "No Churn"

/-- The body of the `try` block in `predict` (lines 95-98). -/
def predictE (A : Artifacts) (r : RawRecord) : Except PErr String := do
  let x ← preprocess_data A r
  let idx := A.model x
  let label ← decodeTarget A.le_target idx
  .ok (churnString label)

/-- `predict` (lines 59-101): run the pipeline; the catch-all except block
returns the failure's message as a plain string. -/
def predict (A : Artifacts) (r : RawRecord) : String :=
  match predictE A r with
  | .ok s => s
  | .error e => e.message

/-- Total width of the one-hot indicator block fixed at fit time. -/
def oneHotWidth (A : Artifacts) : ℕ :=
  A.one_hot_encoder.multipleLines.length +
  A.one_hot_encoder.internetService.length +
  A.one_hot_encoder.onlineSecurity.length +
  A.one_hot_encoder.onlineBackup.length +
  A.one_hot_encoder.deviceProtection.length +
  A.one_hot_encoder.techSupport.length +
  A.one_hot_encoder.streamingTV.length +
  A.one_hot_encoder.streamingMovies.length +
  A.one_hot_encoder.contract.length +
  A.one_hot_encoder.paymentMethod.length

/-! ### Concrete fixture artifacts and records, used by witnesses -/

/-- Fixture label encoders with the category tables of §6 (sklearn stores
classes sorted). -/
def fixtureLE : LabelEncs where
  partner := ⟨["No", "Yes"]⟩
  dependents := ⟨["No", "Yes"]⟩
  phoneService := ⟨["No", "Yes"]⟩
  paperlessBilling := ⟨["No", "Yes"]⟩
  gender := ⟨["Female", "Male"]⟩

/-- Fixture one-hot encoder with the category tables of §6. -/
def fixtureOH : OneHotEnc where
  multipleLines := ["No", "No phone service", "Yes"]
  internetService := ["DSL", "Fiber optic", "No"]
  onlineSecurity := ["No", "No internet service", "Yes"]
  onlineBackup := ["No", "No internet service", "Yes"]
  deviceProtection := ["No", "No internet service", "Yes"]
  techSupport := ["No", "No internet service", "Yes"]
  streamingTV := ["No", "No internet service", "Yes"]
  streamingMovies := ["No", "No internet service", "Yes"]
  contract := ["Month-to-month", "One year", "Two year"]
  paymentMethod := ["Bank transfer (automatic)", "Credit card (automatic)",
                    "Electronic check", "Mailed check"]

/-- Fixture scaler parameters (nondegenerate). -/
def fixtureScaler : MinMaxScaler where
  tenure := ⟨0, 72⟩
  monthlyCharges := ⟨0, 100⟩
  totalCharges := ⟨0, 10000⟩

/-- Fixture artifact bundle: the tables above, a constant classifier and the
target class list. -/
def fixtureA : Artifacts where
  label_encoders := fixtureLE
  one_hot_encoder := fixtureOH
  min_max_scaler := fixtureScaler
  model := fun _ => 0
  le_target := ["No", "Yes"]

/-- The §8 scenario record. -/
def fixtureR : RawRecord where
  gender := "Female"
  SeniorCitizen := 0
  Partner := "Yes"
  Dependents := "No"
  tenure := .num 12
  PhoneService := "Yes"
  MultipleLines := "No"
  InternetService := "DSL"
  OnlineSecurity := "Yes"
  OnlineBackup := "No"
  DeviceProtection := "No"
  TechSupport := "No"
  StreamingTV := "No"
  StreamingMovies := "No"
  Contract := "One year"
  PaperlessBilling := "No"
  PaymentMethod := "Mailed check"
  MonthlyCharges := .num 50
  TotalCharges := .num 600

/-! ### String stripping lemmas -/

/-- Dropping a predicate past a prefix all of whose characters satisfy it. -/
theorem dropWhile_append_all {p : Char → Bool} {a : List Char}
    (ha : ∀ c ∈ a, p c = true) (l : List Char) :
    (a ++ l).dropWhile p = l.dropWhile p := by
  induction a with
  | nil => rfl
  | cons c cs ih =>
      have hc : p c = true := ha c (List.mem_cons_self c cs)
      simp only [List.cons_append, List.dropWhile_cons, hc, if_true]
      exact ih fun d hd => ha d (List.mem_cons_of_mem c hd)

/-- A list of whitespace characters strips to nothing. -/
theorem dropWhile_all_nil {p : Char → Bool} {l : List Char}
    (h : ∀ c ∈ l, p c = true) : l.dropWhile p = [] :=
  List.dropWhile_eq_nil_iff.mpr fun c hc => h c hc

/-- `lstripChars` ignores a whitespace prefix. -/
theorem lstripChars_ws_append {a : List Char}
    (ha : ∀ c ∈ a, isPySpace c = true) (l : List Char) :
    lstripChars (a ++ l) = lstripChars l :=
  dropWhile_append_all ha l

/-- `rstripChars` ignores a whitespace suffix. -/
theorem rstripChars_append_ws {b : List Char}
    (hb : ∀ c ∈ b, isPySpace c = true) (l : List Char) :
    rstripChars (l ++ b) = rstripChars l := by
  unfold rstripChars
  rw [List.reverse_append,
    dropWhile_append_all (fun c hc => hb c (List.mem_reverse.mp hc))]

/-- Stripping both ends ignores whitespace padding on both sides. -/
theorem stripChars_pad {a b : List Char}
    (ha : ∀ c ∈ a, isPySpace c = true) (hb : ∀ c ∈ b, isPySpace c = true)
    (s : List Char) : stripChars (a ++ s ++ b) = stripChars s := by
  unfold stripChars
  rw [List.append_assoc, lstripChars_ws_append ha]
  induction s with
  | nil =>
      unfold lstripChars
      rw [List.nil_append, dropWhile_all_nil hb]
      rfl
  | cons c cs ih =>
      by_cases hc : isPySpace c = true
      · unfold lstripChars
        simp only [List.cons_append, List.dropWhile_cons, hc, if_true]
        exact ih
      · unfold lstripChars
        simp only [List.cons_append, List.dropWhile_cons, hc]
        simp only [Bool.false_eq_true, if_false]
        rw [show (c :: (cs ++ b)) = (c :: cs) ++ b from rfl,
          rstripChars_append_ws hb]

/-- `str.strip()` ignores whitespace padding: the stripped value of
`a ++ s ++ b` equals the stripped value of `s` when `a` and `b` are pure
whitespace. -/
theorem pyStrip_pad {a b : String}
    (ha : ∀ c ∈ a.data, isPySpace c = true)
    (hb : ∀ c ∈ b.data, isPySpace c = true) (s : String) :
    pyStrip (a ++ s ++ b) = pyStrip s := by
  unfold pyStrip
  rw [show (a ++ s ++ b).data = a.data ++ s.data ++ b.data from rfl,
    stripChars_pad ha hb]

/-! ### Stage lemmas: label encoding -/

/-- Bind on a successful `Except` computation. -/
@[simp] theorem except_bind_ok {α β γ : Type} (a : α) (f : α → Except γ β) :
    ((Except.ok a : Except γ α) >>= f) = f a := rfl

/-- Bind on a failed `Except` computation. -/
@[simp] theorem except_bind_err {α β γ : Type} (e : γ) (f : α → Except γ β) :
    ((Except.error e : Except γ α) >>= f) = .error e := rfl

/-- When every cleaned value is among its encoder's categories, label
encoding succeeds and produces one code per column. -/
theorem labelEncodeAll_ok {l : List (String × LabelEnc × String)}
    (h : ∀ t ∈ l, t.2.2 ∈ t.2.1.classes) :
    ∃ xs, labelEncodeAll l = .ok xs ∧ xs.length = l.length := by
  induction l with
  | nil => exact ⟨[], rfl, rfl⟩
  | cons t rest ih =>
      obtain ⟨xs, hxs, hlen⟩ := ih fun u hu => h u (List.mem_cons_of_mem t hu)
      obtain ⟨f, e, s⟩ := t
      have hs : s ∈ e.classes := h (f, e, s) (List.mem_cons_self _ _)
      refine ⟨e.classes.indexOf s :: xs, ?_, by simp [hlen]⟩
      simp [labelEncodeAll, LabelEnc.transform, hs, hxs]

/-- The only failure label encoding can produce is an unknown category. -/
theorem labelEncodeAll_error_shape {l : List (String × LabelEnc × String)}
    {e : PErr} (h : labelEncodeAll l = .error e) :
    ∃ f v, e = .unknownCategory f v := by
  induction l with
  | nil => simp [labelEncodeAll] at h
  | cons t rest ih =>
      obtain ⟨f, en, s⟩ := t
      by_cases hs : s ∈ en.classes
      · cases hrest : labelEncodeAll rest with
        | ok xs => simp [labelEncodeAll, LabelEnc.transform, hs, hrest] at h
        | error e' =>
            simp [labelEncodeAll, LabelEnc.transform, hs, hrest] at h
            rw [h] at hrest
            exact ih hrest
      · simp [labelEncodeAll, LabelEnc.transform, hs] at h
        exact ⟨f, s, h.symm⟩

/-- An unknown category in some column makes label encoding fail. -/
theorem labelEncodeAll_error_of_unknown {l : List (String × LabelEnc × String)}
    (h : ∃ t ∈ l, t.2.2 ∉ t.2.1.classes) :
    ∃ e, labelEncodeAll l = .error e := by
  induction l with
  | nil => simp at h
  | cons t rest ih =>
      obtain ⟨f, en, s⟩ := t
      by_cases hs : s ∈ en.classes
      · have hrest : ∃ u ∈ rest, u.2.2 ∉ u.2.1.classes := by
          obtain ⟨u, hu, hunk⟩ := h
          rcases List.mem_cons.mp hu with huh | hut
          · rw [huh] at hunk
            exact absurd hs hunk
          · exact ⟨u, hut, hunk⟩
        obtain ⟨e', he'⟩ := ih hrest
        exact ⟨e', by simp [labelEncodeAll, LabelEnc.transform, hs, he']⟩
      · exact ⟨.unknownCategory f s,
          by simp [labelEncodeAll, LabelEnc.transform, hs]⟩

/-! ### Stage lemmas: one-hot encoding -/

/-- When every cleaned value is among its field's categories, one-hot
encoding succeeds and the indicator block has the fixed fit-time width. -/
theorem oneHotAll_ok {l : List (String × List String × String)}
    (h : ∀ t ∈ l, t.2.2 ∈ t.2.1) :
    ∃ xs, oneHotAll l = .ok xs ∧
      xs.length = (l.map fun t => t.2.1.length).sum := by
  induction l with
  | nil => exact ⟨[], rfl, rfl⟩
  | cons t rest ih =>
      obtain ⟨xs, hxs, hlen⟩ := ih fun u hu => h u (List.mem_cons_of_mem t hu)
      obtain ⟨f, cats, s⟩ := t
      have hs : s ∈ cats := h (f, cats, s) (List.mem_cons_self _ _)
      refine ⟨(cats.map fun c => if c = s then (1 : ℚ) else 0) ++ xs, ?_, ?_⟩
      · simp [oneHotAll, oneHotField, hs, hxs]
      · simp [hlen]

/-- The only failure one-hot encoding can produce is an unknown category. -/
theorem oneHotAll_error_shape {l : List (String × List String × String)}
    {e : PErr} (h : oneHotAll l = .error e) :
    ∃ f v, e = .unknownCategory f v := by
  induction l with
  | nil => simp [oneHotAll] at h
  | cons t rest ih =>
      obtain ⟨f, cats, s⟩ := t
      by_cases hs : s ∈ cats
      · cases hrest : oneHotAll rest with
        | ok xs => simp [oneHotAll, oneHotField, hs, hrest] at h
        | error e' =>
            simp [oneHotAll, oneHotField, hs, hrest] at h
            rw [h] at hrest
            exact ih hrest
      · simp [oneHotAll, oneHotField, hs] at h
        exact ⟨f, s, h.symm⟩

/-- An unknown category in some one-hot column makes encoding fail. -/
theorem oneHotAll_error_of_unknown {l : List (String × List String × String)}
    (h : ∃ t ∈ l, t.2.2 ∉ t.2.1) :
    ∃ e, oneHotAll l = .error e := by
  induction l with
  | nil => simp at h
  | cons t rest ih =>
      obtain ⟨f, cats, s⟩ := t
      by_cases hs : s ∈ cats
      · have hrest : ∃ u ∈ rest, u.2.2 ∉ u.2.1 := by
          obtain ⟨u, hu, hunk⟩ := h
          rcases List.mem_cons.mp hu with huh | hut
          · rw [huh] at hunk
            exact absurd hs hunk
          · exact ⟨u, hut, hunk⟩
        obtain ⟨e', he'⟩ := ih hrest
        exact ⟨e', by simp [oneHotAll, oneHotField, hs, he']⟩
      · exact ⟨.unknownCategory f s, by simp [oneHotAll, oneHotField, hs]⟩

/-! ### Stage lemmas: min-max scaling -/

/-- When no fitted field is degenerate, scaling succeeds with one output per
column. -/
theorem scaleAll_ok {l : List (String × ScalerParams × Option ℚ)}
    (h : ∀ t ∈ l, t.2.1.dataMin ≠ t.2.1.dataMax) :
    ∃ xs, scaleAll l = .ok xs ∧ xs.length = l.length := by
  induction l with
  | nil => exact ⟨[], rfl, rfl⟩
  | cons t rest ih =>
      obtain ⟨xs, hxs, hlen⟩ := ih fun u hu => h u (List.mem_cons_of_mem t hu)
      obtain ⟨f, p, v⟩ := t
      have hp : p.dataMin ≠ p.dataMax := h (f, p, v) (List.mem_cons_self _ _)
      refine ⟨(v.map fun x => (x - p.dataMin) / (p.dataMax - p.dataMin)) :: xs,
        ?_, by simp [hlen]⟩
      simp [scaleAll, scaleValue, hp, hxs]

/-- The only failure scaling can produce is a degenerate fitted range. -/
theorem scaleAll_error_shape {l : List (String × ScalerParams × Option ℚ)}
    {e : PErr} (h : scaleAll l = .error e) :
    ∃ f, e = .degenerateScale f := by
  induction l with
  | nil => simp [scaleAll] at h
  | cons t rest ih =>
      obtain ⟨f, p, v⟩ := t
      by_cases hp : p.dataMin = p.dataMax
      · simp [scaleAll, scaleValue, hp] at h
        exact ⟨f, h.symm⟩
      · cases hrest : scaleAll rest with
        | ok xs => simp [scaleAll, scaleValue, hp, hrest] at h
        | error e' =>
            simp [scaleAll, scaleValue, hp, hrest] at h
            rw [h] at hrest
            exact ih hrest

/-- A degenerate fitted range in some column makes scaling fail. -/
theorem scaleAll_error_of_degenerate {l : List (String × ScalerParams × Option ℚ)}
    (h : ∃ t ∈ l, t.2.1.dataMin = t.2.1.dataMax) :
    ∃ e, scaleAll l = .error e := by
  induction l with
  | nil => simp at h
  | cons t rest ih =>
      obtain ⟨f, p, v⟩ := t
      by_cases hp : p.dataMin = p.dataMax
      · exact ⟨.degenerateScale f, by simp [scaleAll, scaleValue, hp]⟩
      · have hrest : ∃ u ∈ rest, u.2.1.dataMin = u.2.1.dataMax := by
          obtain ⟨u, hu, hdeg⟩ := h
          rcases List.mem_cons.mp hu with huh | hut
          · rw [huh] at hdeg
            exact absurd hdeg hp
          · exact ⟨u, hut, hdeg⟩
        obtain ⟨e', he'⟩ := ih hrest
        exact ⟨e', by simp [scaleAll, scaleValue, hp, he']⟩

/-! ### Validity predicates -/

/-- Every stripped categorical value is among the categories its fitted
encoder knows (the §6 domain contract). -/
structure ValidCats (A : Artifacts) (c : CatValues) : Prop where
  partner : c.Partner ∈ A.label_encoders.partner.classes
  dependents : c.Dependents ∈ A.label_encoders.dependents.classes
  phoneService : c.PhoneService ∈ A.label_encoders.phoneService.classes
  paperlessBilling : c.PaperlessBilling ∈ A.label_encoders.paperlessBilling.classes
  gender : c.gender ∈ A.label_encoders.gender.classes
  multipleLines : c.MultipleLines ∈ A.one_hot_encoder.multipleLines
  internetService : c.InternetService ∈ A.one_hot_encoder.internetService
  onlineSecurity : c.OnlineSecurity ∈ A.one_hot_encoder.onlineSecurity
  onlineBackup : c.OnlineBackup ∈ A.one_hot_encoder.onlineBackup
  deviceProtection : c.DeviceProtection ∈ A.one_hot_encoder.deviceProtection
  techSupport : c.TechSupport ∈ A.one_hot_encoder.techSupport
  streamingTV : c.StreamingTV ∈ A.one_hot_encoder.streamingTV
  streamingMovies : c.StreamingMovies ∈ A.one_hot_encoder.streamingMovies
  contract : c.Contract ∈ A.one_hot_encoder.contract
  paymentMethod : c.PaymentMethod ∈ A.one_hot_encoder.paymentMethod

/-- The three numeric fields hold actual numbers (the §6 domain contract:
non-negative numbers arrive from the form's number inputs). -/
structure NumericIsNum (r : RawRecord) : Prop where
  tenure : ∃ q, r.tenure = NumVal.num q
  monthlyCharges : ∃ q, r.MonthlyCharges = NumVal.num q
  totalCharges : ∃ q, r.TotalCharges = NumVal.num q

/-- The three numeric fields pass the coerce-and-impute step (numbers,
parsable strings, or the one-space missing marker). -/
structure NumericCoerces (r : RawRecord) : Prop where
  tenure : ∃ v, coerceNumeric r.tenure = .ok v
  monthlyCharges : ∃ v, coerceNumeric r.MonthlyCharges = .ok v
  totalCharges : ∃ v, coerceNumeric r.TotalCharges = .ok v

/-- No fitted scaler field is degenerate (`min ≠ max` per field). -/
structure NondegScaler (A : Artifacts) : Prop where
  tenure : A.min_max_scaler.tenure.dataMin ≠ A.min_max_scaler.tenure.dataMax
  monthlyCharges :
    A.min_max_scaler.monthlyCharges.dataMin ≠ A.min_max_scaler.monthlyCharges.dataMax
  totalCharges :
    A.min_max_scaler.totalCharges.dataMin ≠ A.min_max_scaler.totalCharges.dataMax

/-- `ValidCats` makes every label-encode triple known. -/
theorem labelTriples_known {A : Artifacts} {c : CatValues} (h : ValidCats A c) :
    ∀ t ∈ labelTriples A c, t.2.2 ∈ t.2.1.classes := by
  intro t ht
  simp only [labelTriples, List.mem_cons, List.not_mem_nil, or_false] at ht
  rcases ht with h1 | h1 | h1 | h1 | h1 <;> subst h1
  · exact h.partner
  · exact h.dependents
  · exact h.phoneService
  · exact h.paperlessBilling
  · exact h.gender

/-- `ValidCats` makes every one-hot triple known. -/
theorem oneHotTriples_known {A : Artifacts} {c : CatValues} (h : ValidCats A c) :
    ∀ t ∈ oneHotTriples A c, t.2.2 ∈ t.2.1 := by
  intro t ht
  simp only [oneHotTriples, List.mem_cons, List.not_mem_nil, or_false] at ht
  rcases ht with h1 | h1 | h1 | h1 | h1 | h1 | h1 | h1 | h1 | h1 <;> subst h1
  · exact h.multipleLines
  · exact h.internetService
  · exact h.onlineSecurity
  · exact h.onlineBackup
  · exact h.deviceProtection
  · exact h.techSupport
  · exact h.streamingTV
  · exact h.streamingMovies
  · exact h.contract
  · exact h.paymentMethod

/-- `NondegScaler` makes every scale triple nondegenerate. -/
theorem scaleTriples_nondeg {A : Artifacts} (h : NondegScaler A)
    (t m tc : Option ℚ) :
    ∀ u ∈ scaleTriples A t m tc, u.2.1.dataMin ≠ u.2.1.dataMax := by
  intro u hu
  simp only [scaleTriples, List.mem_cons, List.not_mem_nil, or_false] at hu
  rcases hu with h1 | h1 | h1 <;> subst h1
  · exact h.tenure
  · exact h.monthlyCharges
  · exact h.totalCharges

/-- Once the three numeric cells coerce, `preprocessCore` is the staged
pipeline over the imputed values. -/
theorem preprocessCore_num_ok {A : Artifacts} {c : CatValues}
    {t m tc : NumVal} {t0 m0 tc0 : Option ℚ}
    (h1 : coerceNumeric t = .ok t0) (h2 : coerceNumeric m = .ok m0)
    (h3 : coerceNumeric tc = .ok tc0) :
    preprocessCore A c t m tc =
      (labelEncodeAll (labelTriples A c) >>= fun labels =>
        oneHotAll (oneHotTriples A c) >>= fun oneHot =>
          scaleAll (scaleTriples A (imputeNumeric t0) (imputeNumeric m0)
              (imputeNumeric tc0)) >>= fun scaled =>
            .ok (labels.map natCell ++ scaled ++ oneHot.map some)) := by
  simp [preprocessCore, h1, h2, h3]

/-! ### Claim theorems -/

/-- C1: for every valid Raw Input Record (every field within its declared
domain, with usable fitted scaler parameters), `preprocess_data` returns a
feature vector that is the ordered concatenation of the 5 label-encoded
integers, then the 3 min-max-scaled numerics, then the one-hot indicator
block, with fixed total width `5 + 3 + oneHotWidth` — the same column
layout on every call. -/
theorem preprocess_feature_vector_shape (A : Artifacts) (r : RawRecord)
    (hv : ValidCats A (stripCats r)) (hn : NumericIsNum r)
    (hs : NondegScaler A) :
    ∃ (lab : List ℕ) (scl : List (Option ℚ)) (oh : List ℚ),
      preprocess_data A r =
        .ok (lab.map natCell ++ scl ++ oh.map some) ∧
      lab.length = 5 ∧ scl.length = 3 ∧ oh.length = oneHotWidth A ∧
      (lab.map natCell ++ scl ++ oh.map some).length =
        5 + 3 + oneHotWidth A := by
  obtain ⟨q1, ht⟩ := hn.tenure
  obtain ⟨q2, hm⟩ := hn.monthlyCharges
  obtain ⟨q3, htc⟩ := hn.totalCharges
  have h1 : coerceNumeric r.tenure = .ok (some q1) := by rw [ht]; rfl
  have h2 : coerceNumeric r.MonthlyCharges = .ok (some q2) := by rw [hm]; rfl
  have h3 : coerceNumeric r.TotalCharges = .ok (some q3) := by rw [htc]; rfl
  obtain ⟨labs, hlabs, hlablen⟩ := labelEncodeAll_ok (labelTriples_known hv)
  obtain ⟨ohs, hohs, hohlen⟩ := oneHotAll_ok (oneHotTriples_known hv)
  obtain ⟨scls, hscls, hscllen⟩ := scaleAll_ok
    (scaleTriples_nondeg hs (imputeNumeric (some q1)) (imputeNumeric (some q2))
      (imputeNumeric (some q3)))
  have hlab5 : labs.length = 5 := by rw [hlablen]; rfl
  have hscl3 : scls.length = 3 := by rw [hscllen]; rfl
  have hohw : ohs.length = oneHotWidth A := by
    rw [hohlen]
    simp [oneHotTriples, oneHotWidth]
    omega
  refine ⟨labs, scls, ohs, ?_, hlab5, hscl3, hohw, ?_⟩
  · unfold preprocess_data
    rw [preprocessCore_num_ok h1 h2 h3]
    simp [hlabs, hohs, hscls]
  · rw [List.length_append, List.length_append, List.length_map,
      List.length_map, hlab5, hscl3, hohw]

/-- C1 witness: the §8 scenario record against the fixture artifacts. -/
theorem preprocess_feature_vector_shape_witness :
    ∃ (lab : List ℕ) (scl : List (Option ℚ)) (oh : List ℚ),
      preprocess_data fixtureA fixtureR =
        .ok (lab.map natCell ++ scl ++ oh.map some) ∧
      lab.length = 5 ∧ scl.length = 3 ∧ oh.length = oneHotWidth fixtureA ∧
      (lab.map natCell ++ scl ++ oh.map some).length =
        5 + 3 + oneHotWidth fixtureA :=
  preprocess_feature_vector_shape fixtureA fixtureR
    (by constructor <;> decide)
    ⟨⟨12, rfl⟩, ⟨50, rfl⟩, ⟨600, rfl⟩⟩
    (by constructor <;> decide)

/-- A failing preprocessing step is caught by the catch-all in `predict`,
which returns the exception's message. -/
theorem predict_of_preprocess_error {A : Artifacts} {r : RawRecord}
    {e : PErr} (h : preprocess_data A r = .error e) :
    predict A r = e.message := by
  simp [predict, predictE, h]

/-- The record used for the unknown-category witness: the §8 scenario with
`InternetService` set to the out-of-domain value `"Cable"`. -/
def fixtureUnkR : RawRecord := { fixtureR with InternetService := "Cable" }

/-- C2: whenever some label-encoded or one-hot-encoded field holds a cleaned
string the relevant fitted encoder does not know (and the numeric cells
coerce, so preprocessing reaches the encoders), the Feature Encoder fails
with an unknown-category error and `predict` surfaces that error's message
instead of a prediction. -/
theorem unknown_category_fails (A : Artifacts) (r : RawRecord)
    (hnum : NumericCoerces r)
    (hunk : (∃ t ∈ labelTriples A (stripCats r), t.2.2 ∉ t.2.1.classes) ∨
      (∃ t ∈ oneHotTriples A (stripCats r), t.2.2 ∉ t.2.1)) :
    ∃ f v, preprocess_data A r = .error (.unknownCategory f v) ∧
      predict A r = (PErr.unknownCategory f v).message := by
  obtain ⟨t0, h1⟩ := hnum.tenure
  obtain ⟨m0, h2⟩ := hnum.monthlyCharges
  obtain ⟨tc0, h3⟩ := hnum.totalCharges
  have hpre : ∃ f v, preprocess_data A r = .error (.unknownCategory f v) := by
    unfold preprocess_data
    rw [preprocessCore_num_ok h1 h2 h3]
    rcases hunk with hl | hoh
    · obtain ⟨e, he⟩ := labelEncodeAll_error_of_unknown hl
      obtain ⟨f, v, hfv⟩ := labelEncodeAll_error_shape he
      subst hfv
      exact ⟨f, v, by simp [he]⟩
    · cases hlab : labelEncodeAll (labelTriples A (stripCats r)) with
      | error e =>
          obtain ⟨f, v, hfv⟩ := labelEncodeAll_error_shape hlab
          subst hfv
          exact ⟨f, v, by simp [hlab]⟩
      | ok labs =>
          obtain ⟨e, he⟩ := oneHotAll_error_of_unknown hoh
          obtain ⟨f, v, hfv⟩ := oneHotAll_error_shape he
          subst hfv
          exact ⟨f, v, by simp [hlab, he]⟩
  obtain ⟨f, v, hfv⟩ := hpre
  exact ⟨f, v, hfv, predict_of_preprocess_error hfv⟩

/-- C2 witness: `InternetService = "Cable"` yields the unknown-category
error and `predict` returns its message. -/
theorem unknown_category_fails_witness :
    ∃ f v, preprocess_data fixtureA fixtureUnkR =
        .error (.unknownCategory f v) ∧
      predict fixtureA fixtureUnkR = (PErr.unknownCategory f v).message :=
  unknown_category_fails fixtureA fixtureUnkR
    ⟨⟨some 12, rfl⟩, ⟨some 50, rfl⟩, ⟨some 600, rfl⟩⟩
    (Or.inr (by decide))

/-- `float()` fails on a string whose characters are all whitespace (it
strips to nothing). -/
theorem pyFloat_ws_none {s : String}
    (h : ∀ c ∈ s.data, isPySpace c = true) : pyFloat s = none := by
  have hstrip : stripChars s.data = [] := by
    unfold stripChars lstripChars
    rw [dropWhile_all_nil h]
    rfl
  unfold pyFloat
  rw [hstrip]
  decide

/-- C3 counterexample: the two-space string is pure whitespace, yet the
coercion step raises a float-parse error instead of treating it as missing
(only the exact one-space string is replaced by NaN). -/
theorem whitespace_missing_counterexample :
    (∀ c ∈ ("  " : String).data, isPySpace c = true) ∧
    coerceNumeric (NumVal.str "  ") = .error (.parseFloat "  ") ∧
    preprocess_data fixtureA { fixtureR with TotalCharges := .str "  " } =
      .error (.parseFloat "  ") :=
  ⟨by decide, rfl, rfl⟩

/-- C3 amended: the coercion step treats exactly the one-space string `" "`
as missing; every other pure-whitespace string value fails float parsing
with an error instead of being treated as missing. -/
theorem whitespace_missing_amended (s : String)
    (hws : ∀ c ∈ s.data, isPySpace c = true) (hne : s ≠ " ") :
    coerceNumeric (NumVal.str " ") = .ok none ∧
    coerceNumeric (NumVal.str s) = .error (.parseFloat s) := by
  refine ⟨rfl, ?_⟩
  simp only [coerceNumeric]
  rw [if_neg hne, pyFloat_ws_none hws]

/-- C3 amended witness: the two-space string. -/
theorem whitespace_missing_amended_witness :
    coerceNumeric (NumVal.str " ") = .ok none ∧
    coerceNumeric (NumVal.str "  ") = .error (.parseFloat "  ") :=
  whitespace_missing_amended "  " (by decide) (by decide)

/-- Artifacts whose fitted tenure range is degenerate (min = max). -/
def fixtureDegA : Artifacts :=
  { fixtureA with
    min_max_scaler :=
      { tenure := ⟨5, 5⟩
        monthlyCharges := ⟨0, 100⟩
        totalCharges := ⟨0, 10000⟩ } }

/-- C4: when some numeric field's fitted scaler has min equal to max,
preprocessing a record that reaches the scaling step surfaces a
degenerate-scale error (and `predict` returns its message) rather than a
silent NaN in the feature vector. -/
theorem degenerate_scale_error (A : Artifacts) (r : RawRecord)
    (hv : ValidCats A (stripCats r)) (hn : NumericIsNum r)
    (hdeg : A.min_max_scaler.tenure.dataMin = A.min_max_scaler.tenure.dataMax ∨
      A.min_max_scaler.monthlyCharges.dataMin =
        A.min_max_scaler.monthlyCharges.dataMax ∨
      A.min_max_scaler.totalCharges.dataMin =
        A.min_max_scaler.totalCharges.dataMax) :
    ∃ f, preprocess_data A r = .error (.degenerateScale f) ∧
      predict A r = (PErr.degenerateScale f).message := by
  obtain ⟨q1, ht⟩ := hn.tenure
  obtain ⟨q2, hm⟩ := hn.monthlyCharges
  obtain ⟨q3, htc⟩ := hn.totalCharges
  have h1 : coerceNumeric r.tenure = .ok (some q1) := by rw [ht]; rfl
  have h2 : coerceNumeric r.MonthlyCharges = .ok (some q2) := by rw [hm]; rfl
  have h3 : coerceNumeric r.TotalCharges = .ok (some q3) := by rw [htc]; rfl
  obtain ⟨labs, hlabs, -⟩ := labelEncodeAll_ok (labelTriples_known hv)
  obtain ⟨ohs, hohs, -⟩ := oneHotAll_ok (oneHotTriples_known hv)
  have hdeg' : ∃ u ∈ scaleTriples A (imputeNumeric (some q1))
      (imputeNumeric (some q2)) (imputeNumeric (some q3)),
      u.2.1.dataMin = u.2.1.dataMax := by
    rcases hdeg with h | h | h
    · exact ⟨("tenure", A.min_max_scaler.tenure, imputeNumeric (some q1)),
        by simp [scaleTriples], h⟩
    · exact ⟨("MonthlyCharges", A.min_max_scaler.monthlyCharges,
        imputeNumeric (some q2)), by simp [scaleTriples], h⟩
    · exact ⟨("TotalCharges", A.min_max_scaler.totalCharges,
        imputeNumeric (some q3)), by simp [scaleTriples], h⟩
  obtain ⟨e, he⟩ := scaleAll_error_of_degenerate hdeg'
  obtain ⟨f, hf⟩ := scaleAll_error_shape he
  subst hf
  have hpre : preprocess_data A r = .error (.degenerateScale f) := by
    unfold preprocess_data
    rw [preprocessCore_num_ok h1 h2 h3]
    simp [hlabs, hohs, he]
  exact ⟨f, hpre, predict_of_preprocess_error hpre⟩

/-- C4 witness: the §8 scenario against artifacts with a degenerate fitted
tenure range. -/
theorem degenerate_scale_error_witness :
    ∃ f, preprocess_data fixtureDegA fixtureR =
        .error (.degenerateScale f) ∧
      predict fixtureDegA fixtureR = (PErr.degenerateScale f).message :=
  degenerate_scale_error fixtureDegA fixtureR
    (by constructor <;> decide)
    ⟨⟨12, rfl⟩, ⟨50, rfl⟩, ⟨600, rfl⟩⟩
    (Or.inl rfl)

/-- The fifteen categorical columns (the union of `label_encode_cols` and
`one_hot_encode_cols`). -/
inductive CatField where
  | gender
  | Partner
  | Dependents
  | PhoneService
  | MultipleLines
  | InternetService
  | OnlineSecurity
  | OnlineBackup
  | DeviceProtection
  | TechSupport
  | StreamingTV
  | StreamingMovies
  | Contract
  | PaperlessBilling
  | PaymentMethod
  deriving Repr, DecidableEq

/-- Read one categorical column of the record. -/
def getCat (r : RawRecord) : CatField → String
  | .gender => r.gender
  | .Partner => r.Partner
  | .Dependents => r.Dependents
  | .PhoneService => r.PhoneService
  | .MultipleLines => r.MultipleLines
  | .InternetService => r.InternetService
  | .OnlineSecurity => r.OnlineSecurity
  | .OnlineBackup => r.OnlineBackup
  | .DeviceProtection => r.DeviceProtection
  | .TechSupport => r.TechSupport
  | .StreamingTV => r.StreamingTV
  | .StreamingMovies => r.StreamingMovies
  | .Contract => r.Contract
  | .PaperlessBilling => r.PaperlessBilling
  | .PaymentMethod => r.PaymentMethod

/-- Replace one categorical column of the record. -/
def setCat (r : RawRecord) : CatField → String → RawRecord
  | .gender, v => { r with gender := v }
  | .Partner, v => { r with Partner := v }
  | .Dependents, v => { r with Dependents := v }
  | .PhoneService, v => { r with PhoneService := v }
  | .MultipleLines, v => { r with MultipleLines := v }
  | .InternetService, v => { r with InternetService := v }
  | .OnlineSecurity, v => { r with OnlineSecurity := v }
  | .OnlineBackup, v => { r with OnlineBackup := v }
  | .DeviceProtection, v => { r with DeviceProtection := v }
  | .TechSupport, v => { r with TechSupport := v }
  | .StreamingTV, v => { r with StreamingTV := v }
  | .StreamingMovies, v => { r with StreamingMovies := v }
  | .Contract, v => { r with Contract := v }
  | .PaperlessBilling, v => { r with PaperlessBilling := v }
  | .PaymentMethod, v => { r with PaymentMethod := v }

/-- Padding any single categorical column with whitespace is erased by the
strip pass. -/
theorem stripCats_set_pad (r : RawRecord) (f : CatField) {a b : String}
    (ha : ∀ c ∈ a.data, isPySpace c = true)
    (hb : ∀ c ∈ b.data, isPySpace c = true) :
    stripCats (setCat r f (a ++ getCat r f ++ b)) = stripCats r := by
  cases f <;> simp [stripCats, setCat, getCat, pyStrip_pad ha hb]

/-- C5: for every categorical field and any whitespace padding, encoding the
padded record yields the same result as encoding the original record — e.g.
`" Yes"` encodes identically to `"Yes"`. -/
theorem whitespace_padding_invariant (A : Artifacts) (r : RawRecord)
    (f : CatField) (a b : String)
    (ha : ∀ c ∈ a.data, isPySpace c = true)
    (hb : ∀ c ∈ b.data, isPySpace c = true) :
    preprocess_data A (setCat r f (a ++ getCat r f ++ b)) =
      preprocess_data A r := by
  have h1 : (setCat r f (a ++ getCat r f ++ b)).tenure = r.tenure := by
    cases f <;> rfl
  have h2 : (setCat r f (a ++ getCat r f ++ b)).MonthlyCharges =
      r.MonthlyCharges := by
    cases f <;> rfl
  have h3 : (setCat r f (a ++ getCat r f ++ b)).TotalCharges =
      r.TotalCharges := by
    cases f <;> rfl
  unfold preprocess_data
  rw [stripCats_set_pad r f ha hb, h1, h2, h3]

/-- C5 witness: padding `Partner` with spaces (`" Yes "` vs `"Yes"`). -/
theorem whitespace_padding_invariant_witness :
    preprocess_data fixtureA
        (setCat fixtureR .Partner (" " ++ getCat fixtureR .Partner ++ " ")) =
      preprocess_data fixtureA fixtureR :=
  whitespace_padding_invariant fixtureA fixtureR .Partner " " " "
    (by decide) (by decide)

/-- C6: whenever preprocessing and the class-index decode succeed, `predict`
returns `"Churn"` exactly when the decoded label is `"Yes"`, and
`"No Churn"` for every other decoded label (including unexpected ones). -/
theorem churn_decision (A : Artifacts) (r : RawRecord)
    (v : List (Option ℚ)) (lbl : String)
    (hok : preprocess_data A r = .ok v)
    (hdec : A.le_target[A.model v]? = some lbl) :
    predict A r = if lbl = "Yes" then "Churn" else "No Churn" := by
  simp [predict, predictE, hok, decodeTarget, hdec, churnString]

/-- Minimal artifacts for the decision witness: every categorical table is
the singleton `["x"]`, the classifier always answers class 1, and the
target classes are `["No", "Yes"]`. -/
def tinyA : Artifacts where
  label_encoders := ⟨⟨["x"]⟩, ⟨["x"]⟩, ⟨["x"]⟩, ⟨["x"]⟩, ⟨["x"]⟩⟩
  one_hot_encoder :=
    ⟨["x"], ["x"], ["x"], ["x"], ["x"], ["x"], ["x"], ["x"], ["x"], ["x"]⟩
  min_max_scaler := ⟨⟨0, 1⟩, ⟨0, 1⟩, ⟨0, 1⟩⟩
  model := fun _ => 1
  le_target := ["No", "Yes"]

/-- The record matching `tinyA`: every categorical field is `"x"`. -/
def tinyR : RawRecord where
  gender := "x"
  SeniorCitizen := 0
  Partner := "x"
  Dependents := "x"
  tenure := .num 0
  PhoneService := "x"
  MultipleLines := "x"
  InternetService := "x"
  OnlineSecurity := "x"
  OnlineBackup := "x"
  DeviceProtection := "x"
  TechSupport := "x"
  StreamingTV := "x"
  StreamingMovies := "x"
  Contract := "x"
  PaperlessBilling := "x"
  PaymentMethod := "x"
  MonthlyCharges := .num 0
  TotalCharges := .num 0

/-- C6 witness: with decoded label `"Yes"`, the service answers `"Churn"`. -/
theorem churn_decision_witness :
    predict tinyA tinyR = if "Yes" = "Yes" then "Churn" else "No Churn" :=
  churn_decision tinyA tinyR
    [natCell 0, natCell 0, natCell 0, natCell 0, natCell 0,
     some ((0 - 0) / (1 - 0)), some ((0 - 0) / (1 - 0)),
     some ((0 - 0) / (1 - 0)),
     some 1, some 1, some 1, some 1, some 1, some 1, some 1, some 1,
     some 1, some 1]
    "Yes" (by rfl) (by rfl)

/-- C7: `predict` is total — on every input it either returns the pipeline's
answer or catches the failure and returns the failure's message as a plain
string; no per-request error propagates out. -/
theorem predict_always_responds (A : Artifacts) (r : RawRecord) :
    (∃ s, predictE A r = .ok s ∧ predict A r = s) ∨
    (∃ e, predictE A r = .error e ∧ predict A r = e.message) := by
  cases h : predictE A r with
  | ok s => exact Or.inl ⟨s, rfl, by simp [predict, h]⟩
  | error e => exact Or.inr ⟨e, rfl, by simp [predict, h]⟩

/-- The §8 scenario with `TotalCharges` the one-space string. -/
def fixtureNaNR : RawRecord := { fixtureR with TotalCharges := .str " " }

/-- The feature vector the encoder produces for `fixtureNaNR`: the
TotalCharges slot (index 7) is NaN. -/
def fixtureNaNV : List (Option ℚ) :=
  [natCell 1, natCell 0, natCell 1, natCell 0, natCell 0,
   some ((12 - 0) / (72 - 0)), some ((50 - 0) / (100 - 0)), none,
   some 1, some 0, some 0,
   some 1, some 0, some 0,
   some 0, some 0, some 1,
   some 1, some 0, some 0,
   some 1, some 0, some 0,
   some 1, some 0, some 0,
   some 1, some 0, some 0,
   some 1, some 0, some 0,
   some 0, some 1, some 0,
   some 0, some 0, some 0, some 1]

/-- C8: with `TotalCharges = " "` and every other field valid, the one-space
cell becomes NaN, the single-row column mean is NaN, so `fillna` leaves it
NaN; preprocessing succeeds with a NaN in the TotalCharges slot of the
feature vector — no MissingOrInvalidNumeric error is raised — and the NaN
row is handed to the classifier, which here yields a prediction. -/
theorem nan_reaches_classifier :
    preprocess_data fixtureA fixtureNaNR = .ok fixtureNaNV ∧
    fixtureNaNV[7]? = some none ∧
    predict fixtureA fixtureNaNR = "No Churn" :=
  ⟨by rfl, by rfl, by rfl⟩

/-- C9: `preprocess_data` is a deterministic function of the record and the
read-only artifacts — equal inputs give bit-identical feature vectors. -/
theorem preprocess_deterministic (A : Artifacts) (r₁ r₂ : RawRecord)
    (h : r₁ = r₂) : preprocess_data A r₁ = preprocess_data A r₂ := by
  rw [h]

/-- C9 witness: encoding the §8 scenario twice. -/
theorem preprocess_deterministic_witness :
    preprocess_data fixtureA fixtureR = preprocess_data fixtureA fixtureR :=
  preprocess_deterministic fixtureA fixtureR fixtureR rfl

/-- C10: two records that differ only in `SeniorCitizen` preprocess and
predict identically — the field is accepted at the boundary but belongs to
none of the label-encode, one-hot or scaling column groups, so it never
enters the feature vector. -/
theorem senior_citizen_ignored (A : Artifacts) (r : RawRecord) (x y : ℚ) :
    preprocess_data A { r with SeniorCitizen := x } =
        preprocess_data A { r with SeniorCitizen := y } ∧
      predict A { r with SeniorCitizen := x } =
        predict A { r with SeniorCitizen := y } :=
  ⟨rfl, rfl⟩
